import Mathlib

/-!
# DevLabo client dashboard — shallow embedding and verification

This file embeds the DevLabo browser dashboard (Vite + React client under
`client/src`) and the Path Security contract of the sandbox core, and proves
the specification's claims about them.

Conventions of the embedding:
* JS strings are Lean `String`s; template literals become `++` concatenation.
* `JSON.stringify` of an object literal becomes a `Json.obj` whose field list
  is in insertion order; a field whose JS value is `undefined` is omitted,
  exactly as `JSON.stringify` drops it.
* A `fetch` call is embedded as the `HttpRequest` value it sends; the
  `response.ok` check becomes a function from the boolean `ok` status (and the
  parsed payload) to `Except String α`.
* React `useState` updates become explicit state-passing functions.
-/

/-- A JSON value, as produced by `JSON.stringify` on the client: an object
keeps its fields in insertion order. -/
inductive Json where
  | str : String → Json
  | arr : List Json → Json
  | obj : List (String × Json) → Json

/-- The field names of a JSON object, in order; `[]` for non-objects. -/
def Json.keys : Json → List String
  | .obj fields => fields.map Prod.fst
  | _ => []

/-- Look up a top-level field of a JSON object. -/
def Json.lookup (j : Json) (k : String) : Option Json :=
  match j with
  | .obj fields => (fields.find? fun f => f.1 = k).map Prod.snd
  | _ => none

/-- An HTTP request as issued by the client's `fetch` calls: method, URL,
headers, and optional JSON body. A `fetch(url)` with no init object sends a
GET with no headers and no body. -/
structure HttpRequest where
  method : String
  url : String
  headers : List (String × String)
  body : Option Json

/-- `ModuleType` from `client/src/types.ts`:
`'prototype' | 'frontend' | 'dbml' | 'tests'`. -/
inductive ModuleType where
  | prototype
  | frontend
  | dbml
  | tests
deriving Repr, DecidableEq

/-- The string literal a `ModuleType` value denotes in TypeScript. -/
def ModuleType.toString : ModuleType → String
  | .prototype => "prototype"
  | .frontend => "frontend"
  | .dbml => "dbml"
  | .tests => "tests"

/-! ## `client/src/lib/api.ts`

`declare const __API_URL__: string; const API_URL = __API_URL__ || ''`.
The build-time constant is a parameter `API_URL` of the embedding;
`__API_URL__ || ''` is the identity on strings (`''` for `''`), so the
parameter stands for `API_URL` directly. JS string truthiness
(`if (API_URL)`) is the test for non-emptiness. -/

/-- `apiUrl` from `client/src/lib/api.ts`: prepend `API_URL` when it is a
non-empty (truthy) string, else return the relative path unchanged. -/
def apiUrl (API_URL path : String) : String :=
  if API_URL ≠ "" then API_URL ++ path else path

/-- `previewUrl` from `client/src/lib/api.ts`. -/
def previewUrl (API_URL userId projectId module : String) : String :=
  apiUrl API_URL ("/connect/" ++ userId ++ "/" ++ projectId ++ "/" ++ module ++ "/")

/-- `agentChatUrl` from `client/src/lib/api.ts`. -/
def agentChatUrl (API_URL : String) : String :=
  apiUrl API_URL "/agent/chat"

/-- `sandboxFilesUrl` from `client/src/lib/api.ts`. -/
def sandboxFilesUrl (API_URL userId projectId module : String) : String :=
  apiUrl API_URL ("/connect/" ++ userId ++ "/" ++ projectId ++ "/" ++ module ++ "/api/files")

/-! ## `encodeURIComponent`

ECMAScript `encodeURIComponent` leaves the unreserved set
`A–Z a–z 0–9 - _ . ! ~ * ' ( )` intact and percent-encodes every other
character's UTF-8 bytes with uppercase hex digits. -/

/-- Uppercase hexadecimal digit for `n < 16`. -/
def hexDigit (n : Nat) : Char :=
  if n < 10 then Char.ofNat (48 + n) else Char.ofNat (55 + n)

/-- Percent-encode one byte as `%XY` with uppercase hex. -/
def percentByte (b : Nat) : String :=
  String.mk [Char.ofNat 37, hexDigit (b / 16), hexDigit (b % 16)]

/-- The UTF-8 bytes of a Unicode code point. -/
def utf8Bytes (n : Nat) : List Nat :=
  if n < 0x80 then [n]
  else if n < 0x800 then [0xC0 + n / 64, 0x80 + n % 64]
  else if n < 0x10000 then [0xE0 + n / 4096, 0x80 + (n / 64) % 64, 0x80 + n % 64]
  else [0xF0 + n / 262144, 0x80 + (n / 4096) % 64, 0x80 + (n / 64) % 64, 0x80 + n % 64]

/-- Characters `encodeURIComponent` leaves unescaped. -/
def uriUnreserved (c : Char) : Bool :=
  (65 ≤ c.toNat && c.toNat ≤ 90) || (97 ≤ c.toNat && c.toNat ≤ 122) ||
  (48 ≤ c.toNat && c.toNat ≤ 57) ||
  c = Char.ofNat 45 || c = Char.ofNat 95 || c = Char.ofNat 46 ||
  c = Char.ofNat 33 || c = Char.ofNat 126 || c = Char.ofNat 42 ||
  c = Char.ofNat 39 || c = Char.ofNat 40 || c = Char.ofNat 41

/-- ECMAScript `encodeURIComponent`. -/
def encodeURIComponent (s : String) : String :=
  String.join (s.data.map fun c =>
    if uriUnreserved c then String.mk [c]
    else String.join ((utf8Bytes c.toNat).map percentByte))

/-! ## `client/src/hooks/useSandbox.ts`

The three fetch helpers `fetchFileTree`, `readFile`, `writeFile`. Each is
split into the `HttpRequest` it sends and the handling of the response's
`ok` status. The URLs are built with template literals relative to the page
origin (these helpers do not go through `api.ts`). -/

/-- The request sent by `fetchFileTree` (useSandbox.ts lines 10–24):
`fetch('/connect/{user}/{project}/{module}/api/files')`. -/
def fetchFileTree_request (userId projectId module : String) : HttpRequest :=
  { method := "GET"
    url := "/connect/" ++ userId ++ "/" ++ projectId ++ "/" ++ module ++ "/api/files"
    headers := []
    body := none }

/-- `FileNode` from `client/src/types.ts`: name, path, file-or-directory
type, optional children. -/
inductive FileNode where
  | node (name : String) (path : String) (type : String)
      (children : Option (List FileNode))

/-- Response handling of `fetchFileTree`: a non-ok response throws, an ok
response yields the parsed `FileNode[]` payload. -/
def fetchFileTree_result (ok : Bool) (payload : List FileNode) :
    Except String (List FileNode) :=
  if ok then .ok payload else .error "Failed to fetch file tree"

/-- The request sent by `readFile` (useSandbox.ts lines 26–41):
same URL as the listing plus `?path=${encodeURIComponent(path)}`. -/
def readFile_request (userId projectId module path : String) : HttpRequest :=
  { method := "GET"
    url := "/connect/" ++ userId ++ "/" ++ projectId ++ "/" ++ module ++
      "/api/files?path=" ++ encodeURIComponent path
    headers := []
    body := none }

/-- `SandboxFile` from `client/src/types.ts`. -/
structure SandboxFile where
  path : String
  content : String
  type : String
deriving Repr, DecidableEq

/-- Response handling of `readFile`: a non-ok response throws. -/
def readFile_result (ok : Bool) (payload : SandboxFile) :
    Except String SandboxFile :=
  if ok then .ok payload else .error "Failed to read file"

/-- The request sent by `writeFile` (useSandbox.ts lines 43–64):
POST with JSON body `{ path, content }`. -/
def writeFile_request (userId projectId module path content : String) :
    HttpRequest :=
  { method := "POST"
    url := "/connect/" ++ userId ++ "/" ++ projectId ++ "/" ++ module ++ "/api/files"
    headers := [("Content-Type", "application/json")]
    body := some (Json.obj [("path", Json.str path), ("content", Json.str content)]) }

/-- Response handling of `writeFile`: resolves with no value on ok, throws
on a non-ok response. -/
def writeFile_result (ok : Bool) : Except String Unit :=
  if ok then .ok () else .error "Failed to write file"

/-! ## `client/src/types.ts` — chat types -/

/-- A chat `Message` role: `'user' | 'assistant'`. -/
inductive Role where
  | user
  | assistant
deriving Repr, DecidableEq

/-- The string literal a `Role` value denotes in TypeScript. -/
def Role.toString : Role → String
  | .user => "user"
  | .assistant => "assistant"

/-- `Message` from `client/src/types.ts`; the `Date` timestamp is abstracted
to a `Nat` (milliseconds since the epoch). -/
structure Message where
  id : String
  role : Role
  content : String
  timestamp : Nat
deriving Repr, DecidableEq

/-- An `AgentResponse` action's `type` field:
`'file_created' | 'file_modified' | 'file_deleted'`. -/
inductive ActionType where
  | file_created
  | file_modified
  | file_deleted
deriving Repr, DecidableEq

/-- One entry of `AgentResponse.actions`: `{ type, path }`. -/
structure AgentAction where
  type : ActionType
  path : String
deriving Repr, DecidableEq

/-- `AgentResponse` from `client/src/types.ts`: `{ message, actions? }`. -/
structure AgentResponse where
  message : String
  actions : Option (List AgentAction)
deriving Repr, DecidableEq

/-! ## `useAgent` hook (`sendAgentMessage`)

`useAgent`'s mutation builds the request object
`{ message, chat_history: chatHistory?.map(m => ({role, content})), context: { userId, projectId, activeModule } }`
and `sendAgentMessage` POSTs its `JSON.stringify` to `agentChatUrl()`.
When `chatHistory` is `undefined`, `chatHistory?.map(...)` is `undefined`
and `JSON.stringify` omits the `chat_history` key. -/

/-- The JSON body built by `useAgent`'s `mutationFn` for one outgoing
message, in `JSON.stringify` field order. -/
def useAgent_requestBody (message : String) (chatHistory : Option (List Message))
    (userId projectId : String) (activeModule : ModuleType) : Json :=
  Json.obj
    ([("message", Json.str message)] ++
     (match chatHistory with
      | none => []
      | some h =>
          [("chat_history",
            Json.arr (h.map fun m =>
              Json.obj [("role", Json.str m.role.toString),
                        ("content", Json.str m.content)]))]) ++
     [("context",
       Json.obj [("userId", Json.str userId),
                 ("projectId", Json.str projectId),
                 ("activeModule", Json.str activeModule.toString)])])

/-- The HTTP request `sendAgentMessage` issues: POST to `agentChatUrl()` with
a JSON content type and the serialized request object as body. -/
def sendAgentMessage_request (API_URL : String) (body : Json) : HttpRequest :=
  { method := "POST"
    url := agentChatUrl API_URL
    headers := [("Content-Type", "application/json")]
    body := some body }

/-- Response handling of `sendAgentMessage`: a non-ok response throws the
response text (or a fallback), an ok response yields the parsed
`AgentResponse`. -/
def sendAgentMessage_result (ok : Bool) (errorText : String)
    (payload : AgentResponse) : Except String AgentResponse :=
  if ok then .ok payload
  else .error (if errorText ≠ "" then errorText else "Failed to send message")

/-! ## `client/src/components/chat/ChatPanel.tsx`

`messages` state evolves by two appends: `handleSend` appends the user's
message and fires `sendMessage(content)`; the mutation's `onSuccess` appends
an assistant message whose `content` is `response.message`. `crypto.randomUUID()`
and `new Date()` are abstracted as parameters. -/

/-- `handleSend` of ChatPanel: append the user's message to the list
(the subsequent `sendMessage(content)` call is the network side, embedded
separately). -/
def chatPanel_handleSend (messages : List Message) (id : String) (t : Nat)
    (content : String) : List Message :=
  messages ++ [{ id := id, role := .user, content := content, timestamp := t }]

/-- The `onSuccess` callback of ChatPanel's `useAgent` call: append an
assistant message whose content is the response's `message` field. -/
def chatPanel_onSuccess (messages : List Message) (id : String) (t : Nat)
    (response : AgentResponse) : List Message :=
  messages ++ [{ id := id, role := .assistant, content := response.message,
                 timestamp := t }]

/-! ## `client/src/components/chat/ChatInput.tsx`

`handleSubmit` reads the `message` state, trims it, and when the trimmed
text is truthy (non-empty) and `isLoading` is falsy, calls `onSend(trimmed)`
and clears the field; otherwise it does nothing. `handleKeyDown` runs the
same submit on Enter without Shift. The result is the optional text passed
to `onSend`, paired with the new value of the `message` state. -/

/-- ECMAScript white space and line terminators, as stripped by
`String.prototype.trim` (the ASCII portion: TAB, LF, VT, FF, CR, SP). -/
def isJsWhitespace (c : Char) : Bool :=
  c.toNat = 32 || (9 ≤ c.toNat && c.toNat ≤ 13)

/-- ECMAScript `String.prototype.trim`: strip leading and trailing white
space. -/
def jsTrim (s : String) : String :=
  String.mk (((s.data.dropWhile isJsWhitespace).reverse.dropWhile
    isJsWhitespace).reverse)

/-- `handleSubmit` of ChatInput. -/
def chatInput_handleSubmit (message : String) (isLoading : Bool) :
    Option String × String :=
  let trimmed := jsTrim message
  if trimmed ≠ "" ∧ isLoading = false then (some trimmed, "")
  else (none, message)

/-- `handleKeyDown` of ChatInput: Enter without Shift triggers
`handleSubmit`; every other key leaves the state alone (the default textarea
behavior is outside the embedding). -/
def chatInput_handleKeyDown (key : String) (shiftKey : Bool) (message : String)
    (isLoading : Bool) : Option String × String :=
  if key = "Enter" ∧ shiftKey = false then chatInput_handleSubmit message isLoading
  else (none, message)

/-- The `disabled` attribute of ChatInput's send button:
`!message.trim() || isLoading`. -/
def chatInput_sendDisabled (message : String) (isLoading : Bool) : Bool :=
  jsTrim message = "" || isLoading

/-! ## `client/src/components/layout/IconSidebar.tsx` -/

/-- One entry of `NAV_ITEMS` (the `icon` component reference is dropped:
it has no computational content). -/
structure NavItem where
  id : ModuleType
  label : String
deriving Repr, DecidableEq

/-- `NAV_ITEMS` from IconSidebar.tsx, in source order. -/
def NAV_ITEMS : List NavItem :=
  [{ id := .prototype, label := "Prototype" },
   { id := .frontend, label := "Frontend" },
   { id := .dbml, label := "DBML" },
   { id := .tests, label := "Tests" }]

/-! ## `PreviewTabs` TABS (implementation plan, Phase 4 document) -/

/-- One entry of the `TABS` constant of the planned `PreviewTabs` component. -/
structure Tab where
  id : String
  label : String
  port : Nat
deriving Repr, DecidableEq

/-- `TABS` from the Phase 4 plan's `PreviewTabs.tsx`: the static
module-to-port binding. -/
def TABS : List Tab :=
  [{ id := "prototype", label := "Prototype", port := 3001 },
   { id := "frontend", label := "Frontend", port := 3002 },
   { id := "dbml", label := "DBML", port := 3003 },
   { id := "tests", label := "Tests", port := 3004 }]

/-- The port bound to a module name, looked up in `TABS`. -/
def tabPort (module : String) : Option Nat :=
  (TABS.find? fun t => t.id = module).map Tab.port

/-! ## `client/src/components/preview/PreviewPane.tsx`

The component computes
`const previewUrl = buildPreviewUrl(userId, projectId, activeModule)` where
`buildPreviewUrl` is `previewUrl` imported from `lib/api`, and uses that one
value as the iframe's `src`. -/

/-- The `src` of the iframe rendered by PreviewPane. -/
def previewPane_iframeSrc (API_URL userId projectId : String)
    (activeModule : ModuleType) : String :=
  previewUrl API_URL userId projectId activeModule.toString

/-! ## `client/src/components/sidebar/ListModule.tsx`

`MOCK_FILES` is a hard-coded tree; `ListModule` keeps a `filter` string
state that is bound to the `Input` but never consulted when rendering, and
maps `FileTreeItem` over `MOCK_FILES` unconditionally. The file contains no
`fetch` and does not use the `useSandbox` hook. -/

/-- `MOCK_FILES` from ListModule.tsx. -/
def MOCK_FILES : List FileNode :=
  [.node "src" "/src" "directory" (some
     [.node "index.html" "/src/index.html" "file" none,
      .node "App.tsx" "/src/App.tsx" "file" none,
      .node "styles.css" "/src/styles.css" "file" none,
      .node "components" "/src/components" "directory" (some
        [.node "Header.tsx" "/src/components/Header.tsx" "file" none,
         .node "Footer.tsx" "/src/components/Footer.tsx" "file" none])]),
   .node "package.json" "/package.json" "file" none,
   .node "README.md" "/README.md" "file" none]

/-- The list of root file nodes ListModule hands to `FileTreeItem`, as a
function of the `filter` state: the render maps over `MOCK_FILES` without
consulting `filter`. -/
def listModule_renderedNodes (filter : String) : List FileNode :=
  let _ := filter
  MOCK_FILES

/-- The network requests ListModule issues while rendering: the component
contains no `fetch` call and does not invoke `useSandbox`. -/
def listModule_requests : List HttpRequest := []

/-! ## Path Security -/

/-- Errors of the Path Security layer. -/
inductive PathError where
  | PathTraversal
deriving Repr, DecidableEq

/-- Split a character list at `/` separators (the accumulator holds the
current segment's characters in reverse). -/
def splitSlash : List Char → List Char → List String
  | [], cur => [String.mk cur.reverse]
  | c :: rest, cur =>
      if c = Char.ofNat 47 then String.mk cur.reverse :: splitSlash rest []
      else splitSlash rest (c :: cur)

/-- The `/`-separated segments of a path, with empty segments and `.`
segments dropped (they do not move through the tree). -/
def pathSegments (p : String) : List String :=
  (splitSlash p.data []).filter fun s => s ≠ "" ∧ s ≠ "."

/-- Whether a path is absolute (an absolute-path override of the module
root): it starts with a `/` separator. -/
def isAbsolutePath (p : String) : Bool :=
  match p.data with
  | [] => false
  | c :: _ => c = Char.ofNat 47

/-- Whether a path smuggles a null byte or another ASCII control
character. -/
def hasControlChar (p : String) : Bool :=
  p.data.any fun c => c.toNat < 32 || c.toNat = 127

/-- Modelled from the spec: the Path Security `resolve` function lives in
`security/utils.py`, which is not part of the sources here (the task list
and CLAUDE.md only reference it). Per §4.1, `resolve(module_root,
user_supplied_relative_path)` returns an absolute path or fails with
`PathTraversal` when the path would escape `module_root` via `..` segments,
an absolute override, or null-byte/control-character injection, and also
rejects empty paths and paths resolving to the module root itself.
Symlink following is a filesystem effect outside this pure model. -/
def resolve (module_root p : String) : Except PathError String :=
  if p = "" then .error .PathTraversal
  else if isAbsolutePath p then .error .PathTraversal
  else if hasControlChar p then .error .PathTraversal
  else if (pathSegments p).contains ".." then .error .PathTraversal
  else if pathSegments p = [] then .error .PathTraversal
  else .ok (module_root ++ "/" ++ String.intercalate "/" (pathSegments p))

/-! # Theorems -/

/-- C1: For every module root and every user-supplied relative path that
contains `..` segments or an absolute-path override, the Path Security
resolve operation fails with a `PathTraversal` error and never returns a
path outside the module root (it returns no path at all). -/
theorem resolve_rejects_traversal (module_root p : String)
    (h : (pathSegments p).contains ".." = true ∨ isAbsolutePath p = true) :
    resolve module_root p = .error .PathTraversal ∧
      ∀ s, resolve module_root p ≠ .ok s := by
  have herr : resolve module_root p = .error .PathTraversal := by
    unfold resolve
    split_ifs with h1 h2 h3 h4 h5 <;> first
      | rfl
      | · rcases h with h | h
          · exact absurd h (by simpa using h4)
          · exact absurd h (by simpa using h2)
  exact ⟨herr, fun s hs => by rw [herr] at hs; cases hs⟩

/-- Witness for C1: the classic traversal payload from §8 of the spec is
rejected. -/
theorem resolve_rejects_traversal_witness :
    resolve "/workspace/prototype" "../../etc/passwd" = .error .PathTraversal ∧
      ∀ s, resolve "/workspace/prototype" "../../etc/passwd" ≠ .ok s :=
  resolve_rejects_traversal "/workspace/prototype" "../../etc/passwd"
    (Or.inl (by decide))

/-- C2: writing a file from the dashboard issues a POST to
`/connect/{user}/{project}/{module}/api/files` with JSON body
`{path, content}`, and the write succeeds exactly when the HTTP response
status is ok; a non-ok response fails with an error. -/
theorem writeFile_spec (userId projectId module path content : String) :
    writeFile_request userId projectId module path content =
      { method := "POST"
        url := "/connect/" ++ userId ++ "/" ++ projectId ++ "/" ++ module ++
          "/api/files"
        headers := [("Content-Type", "application/json")]
        body := some (Json.obj
          [("path", Json.str path), ("content", Json.str content)]) } ∧
    (∀ ok : Bool, writeFile_result ok = .ok () ↔ ok = true) ∧
    writeFile_result false = .error "Failed to write file" := by
  refine ⟨rfl, ?_, rfl⟩
  intro ok
  cases ok <;> simp [writeFile_result]

/-- C3: the file-listing request is a GET to
`/connect/{user}/{project}/{module}/api/files` with no query string
(whenever the identifiers themselves contain no `?`), the file-read request
is the same URL followed by `?path=<URL-encoded path>`, and in both cases a
non-ok response fails with an error while an ok response yields the
payload. -/
theorem fileApi_get_spec (userId projectId module path : String) :
    fetchFileTree_request userId projectId module =
      { method := "GET"
        url := "/connect/" ++ userId ++ "/" ++ projectId ++ "/" ++ module ++
          "/api/files"
        headers := []
        body := none } ∧
    (readFile_request userId projectId module path).method = "GET" ∧
    (readFile_request userId projectId module path).url =
      (fetchFileTree_request userId projectId module).url ++ "?path=" ++
        encodeURIComponent path ∧
    (Char.ofNat 63 ∉ userId.data → Char.ofNat 63 ∉ projectId.data →
      Char.ofNat 63 ∉ module.data →
      Char.ofNat 63 ∉ (fetchFileTree_request userId projectId module).url.data) ∧
    (∀ payload, fetchFileTree_result true payload = .ok payload) ∧
    (∀ payload, fetchFileTree_result false payload =
      .error "Failed to fetch file tree") ∧
    (∀ payload, readFile_result true payload = .ok payload) ∧
    (∀ payload, readFile_result false payload =
      .error "Failed to read file") := by
  refine ⟨rfl, rfl, ?_, ?_, fun _ => rfl, fun _ => rfl, fun _ => rfl,
    fun _ => rfl⟩
  · simp [readFile_request, fetchFileTree_request, String.append_assoc]
  · intro hu hp hm hmem
    simp only [fetchFileTree_request, String.data_append, List.mem_append]
      at hmem
    rcases hmem with ((((((h | h) | h) | h) | h) | h) | h)
    · exact absurd h (by decide)
    · exact hu h
    · exact absurd h (by decide)
    · exact hp h
    · exact absurd h (by decide)
    · exact hm h
    · exact absurd h (by decide)

/-- Witness for C3: concrete identifiers without `?` give a query-free
listing URL, and the read URL appends the encoded path. -/
theorem fileApi_get_spec_witness :
    Char.ofNat 63 ∉ (fetchFileTree_request "alice" "proj1" "prototype").url.data ∧
    (readFile_request "alice" "proj1" "prototype" "src/App.tsx").url =
      "/connect/alice/proj1/prototype/api/files?path=src%2FApp.tsx" :=
  ⟨(fileApi_get_spec "alice" "proj1" "prototype" "src/App.tsx").2.2.2.1
      (by decide) (by decide) (by decide),
   by rfl⟩

/-- C4: every chat message sent from the dashboard is a POST to
`/agent/chat` (through `apiUrl`) whose JSON body consists exactly of the
field `message`, the optional field `chat_history` (the prior messages
mapped to `{role, content}` pairs, omitted when no history is supplied),
and the field `context` containing `userId`, `projectId` and
`activeModule`. -/
theorem agentChat_request_spec (API_URL message : String)
    (chatHistory : Option (List Message)) (userId projectId : String)
    (activeModule : ModuleType) :
    sendAgentMessage_request API_URL
        (useAgent_requestBody message chatHistory userId projectId activeModule) =
      { method := "POST"
        url := apiUrl API_URL "/agent/chat"
        headers := [("Content-Type", "application/json")]
        body := some (useAgent_requestBody message chatHistory userId projectId
          activeModule) } ∧
    (useAgent_requestBody message chatHistory userId projectId
        activeModule).keys =
      (match chatHistory with
       | none => ["message", "context"]
       | some _ => ["message", "chat_history", "context"]) ∧
    (useAgent_requestBody message chatHistory userId projectId
        activeModule).lookup "message" = some (Json.str message) ∧
    (useAgent_requestBody message chatHistory userId projectId
        activeModule).lookup "context" =
      some (Json.obj [("userId", Json.str userId),
                      ("projectId", Json.str projectId),
                      ("activeModule", Json.str activeModule.toString)]) ∧
    (useAgent_requestBody message chatHistory userId projectId
        activeModule).lookup "chat_history" =
      chatHistory.map (fun h => Json.arr (h.map fun m =>
        Json.obj [("role", Json.str m.role.toString),
                  ("content", Json.str m.content)])) := by
  refine ⟨rfl, ?_, ?_, ?_, ?_⟩ <;>
    cases chatHistory <;>
      simp [useAgent_requestBody, Json.keys, Json.lookup]

/-- C5: a successful agent chat exchange has response shape
`{message, actions?}` with `{type, path}` actions (the types of
`AgentResponse` and `AgentAction`), and appends to the conversation first
the user's own message and then an assistant message whose content is
exactly the response's `message` field. -/
theorem chatPanel_exchange_spec (messages : List Message) (uid aid : String)
    (t1 t2 : Nat) (content : String) (response : AgentResponse) :
    chatPanel_onSuccess (chatPanel_handleSend messages uid t1 content) aid t2
        response =
      messages ++
        [{ id := uid, role := .user, content := content, timestamp := t1 },
         { id := aid, role := .assistant, content := response.message,
           timestamp := t2 }] ∧
    response = { message := response.message, actions := response.actions } := by
  constructor
  · simp [chatPanel_handleSend, chatPanel_onSuccess]
  · rfl

/-- C6: the set of modules is closed — every `ModuleType` value is one of
`prototype`, `frontend`, `dbml`, `tests` (as the string it denotes) — and
the navigation sidebar presents exactly these four, once each, in exactly
that order. -/
theorem modules_closed_and_ordered :
    NAV_ITEMS.map NavItem.id = [.prototype, .frontend, .dbml, .tests] ∧
    (∀ m : ModuleType, m ∈ NAV_ITEMS.map NavItem.id) ∧
    (∀ m : ModuleType,
      m.toString = "prototype" ∨ m.toString = "frontend" ∨
      m.toString = "dbml" ∨ m.toString = "tests") ∧
    (NAV_ITEMS.map NavItem.id).Nodup := by
  refine ⟨rfl, ?_, ?_, by decide⟩
  · intro m
    cases m <;> simp [NAV_ITEMS]
  · intro m
    cases m <;> simp [ModuleType.toString]

/-- C7: each module is bound to a fixed internal port — prototype 3001,
frontend 3002, dbml 3003, tests 3004 — and the module-name-to-port lookup
over `TABS` is a well-defined pure function (the ids are distinct). -/
theorem module_ports_fixed :
    tabPort "prototype" = some 3001 ∧
    tabPort "frontend" = some 3002 ∧
    tabPort "dbml" = some 3003 ∧
    tabPort "tests" = some 3004 ∧
    TABS.map Tab.port = [3001, 3002, 3003, 3004] ∧
    (TABS.map Tab.id).Nodup := by
  refine ⟨rfl, rfl, rfl, rfl, rfl, by decide⟩

/-- C8: for every value of the build-time `API_URL` constant (including a
non-empty production URL), the iframe `src` computed by PreviewPane equals
the `previewUrl` helper applied to the same inputs, namely `apiUrl` of
`/connect/{userId}/{projectId}/{module}/`. -/
theorem previewPane_src_refines_previewUrl (API_URL userId projectId : String)
    (activeModule : ModuleType) :
    previewPane_iframeSrc API_URL userId projectId activeModule =
      previewUrl API_URL userId projectId activeModule.toString ∧
    previewPane_iframeSrc API_URL userId projectId activeModule =
      (if API_URL = "" then "" else API_URL) ++
        ("/connect/" ++ userId ++ "/" ++ projectId ++ "/" ++
          activeModule.toString ++ "/") := by
  refine ⟨rfl, ?_⟩
  rcases eq_or_ne API_URL "" with h | h <;>
    simp [previewPane_iframeSrc, previewUrl, apiUrl, h]

/-- C9: ChatInput submits exactly when the trimmed input is non-empty and
no send is pending; the text passed to `onSend` is exactly the trimmed
input; the field is cleared exactly on submit (and left unchanged
otherwise); Enter without Shift performs the same submit as the send
button, whose `disabled` state matches the no-submit condition. -/
theorem chatInput_submit_spec (message : String) (isLoading : Bool) :
    (jsTrim message ≠ "" ∧ isLoading = false →
      chatInput_handleSubmit message isLoading = (some (jsTrim message), "")) ∧
    (jsTrim message = "" ∨ isLoading = true →
      chatInput_handleSubmit message isLoading = (none, message)) ∧
    chatInput_handleKeyDown "Enter" false message isLoading =
      chatInput_handleSubmit message isLoading ∧
    (∀ key shiftKey, ¬(key = "Enter" ∧ shiftKey = false) →
      chatInput_handleKeyDown key shiftKey message isLoading =
        (none, message)) ∧
    (chatInput_sendDisabled message isLoading = false ↔
      jsTrim message ≠ "" ∧ isLoading = false) := by
  refine ⟨?_, ?_, ?_, ?_, ?_⟩
  · intro h
    simp [chatInput_handleSubmit, h.1, h.2]
  · intro h
    rcases h with h | h <;>
      simp [chatInput_handleSubmit, h]
  · simp [chatInput_handleKeyDown]
  · intro key shiftKey h
    simp [chatInput_handleKeyDown, h]
  · cases isLoading <;>
      simp [chatInput_sendDisabled]

/-- Witness for C9: a padded non-empty input while idle submits its trimmed
text and clears the field; a whitespace-only input does not submit. -/
theorem chatInput_submit_spec_witness :
    chatInput_handleSubmit " hi " false = (some "hi", "") ∧
    chatInput_handleSubmit "   " false = (none, "   ") :=
  ⟨(chatInput_submit_spec " hi " false).1 (by decide),
   (chatInput_submit_spec "   " false).2.1 (Or.inl (by decide))⟩

/-- C10: the sidebar file browser's rendered tree is constant — for every
filter value ListModule hands exactly the hard-coded `MOCK_FILES` to the
tree renderer, independent of any other input, and the component issues no
file-listing request. -/
theorem listModule_constant_tree (filter other : String) :
    listModule_renderedNodes filter = MOCK_FILES ∧
    listModule_renderedNodes filter = listModule_renderedNodes other ∧
    listModule_requests = [] :=
  ⟨rfl, rfl, rfl⟩
